import Mathlib

/-!
Shallow embedding of the `nest-mcp` repository (Rust) for verification of its
specification claims.

The embedding covers:
* `src/tool.rs`: the `SearchRequest` filter object and the
  `build_company_search_query` search-to-SQL compiler;
* `src/auth.rs`: the `claude_only_middleware` perimeter gate and
  `is_from_claude`;
* `src/duckdb.rs`: the SQL-string transformation done by
  `DuckDB::query_all_json` for the raw-query tool.

Rust strings are modelled as Lean `String` (a list of characters);
Rust `f64` is modelled by the inductive `F64` below, which captures exactly
the operations the source uses on it (IEEE comparison, where NaN compares
false with everything, and `Display` formatting).
-/

/-! ### Generic character-list helpers (Rust `str` operations) -/

/-- `startsWithL pat l` is true when `pat` is an initial segment of `l`. -/
def startsWithL : List Char → List Char → Bool
  | [], _ => true
  | _ :: _, [] => false
  | p :: ps, c :: cs => p == c && startsWithL ps cs

/-- `subOccursL pat l`: does `pat` occur contiguously somewhere in `l`?
Models Rust `str::contains` with a string pattern. -/
def subOccursL (pat : List Char) : List Char → Bool
  | [] => startsWithL pat []
  | c :: rest => startsWithL pat (c :: rest) || subOccursL pat rest

/-- Number of (possibly overlapping) start positions at which `pat` occurs in `l`. -/
def subCountL (pat : List Char) : List Char → Nat
  | [] => if startsWithL pat [] then 1 else 0
  | c :: rest => (if startsWithL pat (c :: rest) then 1 else 0) + subCountL pat rest

/-- Rust `s.contains(pat)` (substring containment). -/
def containsStr (s pat : String) : Bool := subOccursL pat.data s.data

/-- Number of occurrences of `pat` in `s`. -/
def subCountStr (s pat : String) : Nat := subCountL pat.data s.data

/-- ASCII whitespace recognizer; agrees with Rust `char::is_whitespace` on
all characters the repository manipulates. -/
def isWsChar (c : Char) : Bool := c == ' ' || c == '\t' || c == '\n' || c == '\r'

/-- Drop the longest trailing run of characters satisfying `p`. -/
def dropTrailingL (p : Char → Bool) (l : List Char) : List Char :=
  (l.reverse.dropWhile p).reverse

/-- Rust `str::trim` on character lists. -/
def rustTrimL (l : List Char) : List Char :=
  dropTrailingL isWsChar (l.dropWhile isWsChar)

/-- Rust `str::trim`. -/
def rustTrim (s : String) : String := ⟨rustTrimL s.data⟩

/-- Rust `s.is_empty()`. -/
def strIsEmpty (s : String) : Bool := s.data.isEmpty

/-- The single-quote character. -/
def squote : Char := Char.ofNat 39

/-- Double every single-quote character (Rust `s.replace("'", "''")`). -/
def escQuotesL : List Char → List Char
  | [] => []
  | c :: cs => if c == squote then squote :: squote :: escQuotesL cs else c :: escQuotesL cs

/-- Rust `s.replace("'", "''")`. -/
def escQuotes (s : String) : String := ⟨escQuotesL s.data⟩

/-- `Vec::join(sep)`. -/
def joinSep (sep : String) : List String → String
  | [] => ""
  | [s] => s
  | s :: rest => s ++ sep ++ joinSep sep rest

/-! ### Model of `f64` (src/tool.rs uses only `>`, `< 0.0` and `Display`) -/

/-- Model of a Rust `f64` value: either NaN or a finite value.  A finite
value carries its rational magnitude (used by comparisons) together with its
`Display` rendering (used when the value is interpolated into SQL). -/
inductive F64 where
  | nan : F64
  | fin (q : ℚ) (disp : String) : F64
deriving DecidableEq

/-- IEEE `>`: NaN compares false with everything. -/
def F64.gt : F64 → F64 → Bool
  | .fin a _, .fin b _ => decide (b < a)
  | _, _ => false

/-- IEEE `< 0.0`: false for NaN. -/
def F64.isNeg : F64 → Bool
  | .fin a _ => decide (a < 0)
  | .nan => false

/-- Rust `Display` for `f64` (`format!("{}", x)`); NaN prints as `NaN`. -/
def F64.toStr : F64 → String
  | .nan => "NaN"
  | .fin _ d => d

/-! ### The filter request (struct `SearchRequest` in src/tool.rs) -/

structure SearchRequest where
  company_name : Option String := none
  foundation_year : Option (Int × Int) := none
  nace_categories : Option (List String) := none
  company_purpose : Option String := none
  revenue_range : Option (F64 × F64) := none
  employee_range : Option (F64 × F64) := none

/-- Model of `rmcp::ErrorData` as produced by `McpError::invalid_params`. -/
inductive McpErr where
  | invalid_params (msg : String)
deriving DecidableEq

/-! ### Error values (the literal messages of src/tool.rs) -/

def nameCharsErr : McpErr := .invalid_params "Invalid characters in company name"

def yearOrderErr : McpErr := .invalid_params "Minimum year cannot be greater than maximum year"

def yearBoundsErr : McpErr := .invalid_params "Years must be between 1800 and 2024"

def naceCharsErr : McpErr := .invalid_params "Invalid characters in NACE categories"

def purposeCharsErr : McpErr := .invalid_params "Invalid characters in company purpose"

def revOrderErr : McpErr := .invalid_params "Minimum revenue cannot be greater than maximum revenue"

def revNegErr : McpErr := .invalid_params "Revenue values must be non-negative"

def empOrderErr : McpErr :=
  .invalid_params "Minimum employee count cannot be greater than maximum employee count"

def empNegErr : McpErr := .invalid_params "Employee count values must be non-negative"

/-! ### Condition fragments (the literal SQL pieces of src/tool.rs) -/

/-- The blacklist test applied to company name, NACE categories and company
purpose: contains a single quote, a semicolon, or `--`. -/
def hasBadChars (t : String) : Bool :=
  containsStr t "'" || containsStr t ";" || containsStr t "--"

def nameFragment (t : String) : String := "company_name ILIKE '%" ++ t ++ "%'"

def yearFragment (lo hi : Int) : String :=
  "foundation_year BETWEEN " ++ toString lo ++ " AND " ++ toString hi

def naceFragment (t : String) : String := "'" ++ t ++ "' = ANY(nace_categories)"

def purposeFragment (t : String) : String :=
  "fts_main_hello_nest.match_bm25(company_id, '" ++ t ++ "') IS NOT NULL"

/-- The constant head of the revenue `EXISTS` fragment, byte for byte as in
the `format!` literal of src/tool.rs (up to its first `{}` placeholder). -/
def revenueFragmentPre : String :=
  "EXISTS (SELECT 1 FROM (VALUES\n" ++
  "                (financial_data['2016']['Sales revenues']),\n" ++
  "                (financial_data['2017']['Sales revenues']),\n" ++
  "                (financial_data['2018']['Sales revenues']),\n" ++
  "                (financial_data['2019']['Sales revenues']),\n" ++
  "                (financial_data['2020']['Sales revenues']),\n" ++
  "                (financial_data['2021']['Sales revenues']),\n" ++
  "                (financial_data['2022']['Sales revenues']),\n" ++
  "                (financial_data['2023']['Sales revenues']),\n" ++
  "                (financial_data['2024']['Sales revenues'])\n" ++
  "            ) AS revenue_data(revenue)\n" ++
  "            WHERE revenue IS NOT NULL AND revenue BETWEEN "

def revenueFragment (mn mx : F64) : String :=
  revenueFragmentPre ++ mn.toStr ++ " AND " ++ mx.toStr ++ ")"

/-- The constant head of the employee `EXISTS` fragment of src/tool.rs. -/
def employeeFragmentPre : String :=
  "EXISTS (SELECT 1 FROM (VALUES\n" ++
  "                (financial_data['2016']['Employees from accounting']),\n" ++
  "                (financial_data['2017']['Employees from accounting']),\n" ++
  "                (financial_data['2018']['Employees from accounting']),\n" ++
  "                (financial_data['2019']['Employees from accounting']),\n" ++
  "                (financial_data['2020']['Employees from accounting']),\n" ++
  "                (financial_data['2021']['Employees from accounting']),\n" ++
  "                (financial_data['2022']['Employees from accounting']),\n" ++
  "                (financial_data['2023']['Employees from accounting']),\n" ++
  "                (financial_data['2024']['Employees from accounting'])\n" ++
  "            ) AS employee_data(employees)\n" ++
  "            WHERE employees IS NOT NULL AND employees BETWEEN "

def employeeFragment (mn mx : F64) : String :=
  employeeFragmentPre ++ mn.toStr ++ " AND " ++ mx.toStr ++ ")"

/-! ### Per-field compilation (the successive blocks of
`build_company_search_query` in src/tool.rs, each with its early `return Err`) -/

def nameCondition : Option String → Except McpErr (List String)
  | none => .ok []
  | some s =>
    let t := rustTrim s
    if strIsEmpty t then .ok []
    else if hasBadChars t then .error nameCharsErr
    else .ok [nameFragment t]

def yearCondition : Option (Int × Int) → Except McpErr (List String)
  | none => .ok []
  | some (lo, hi) =>
    if lo > hi then .error yearOrderErr
    else if lo < 1800 || hi > 2024 then .error yearBoundsErr
    else .ok [yearFragment lo hi]

/-- The `for category in nace_categories` loop body of src/tool.rs. -/
def naceConds : List String → Except McpErr (List String)
  | [] => .ok []
  | c :: rest =>
    let t := rustTrim c
    if strIsEmpty t then naceConds rest
    else if hasBadChars t then .error naceCharsErr
    else
      match naceConds rest with
      | .error e => .error e
      | .ok others => .ok (naceFragment t :: others)

def naceCondition : Option (List String) → Except McpErr (List String)
  | none => .ok []
  | some cats =>
    if cats.isEmpty then .ok []
    else
      match naceConds cats with
      | .error e => .error e
      | .ok cc => if cc.isEmpty then .ok [] else .ok ["(" ++ joinSep " OR " cc ++ ")"]

/-- Returns the condition fragments together with the `has_text_search` flag. -/
def purposeCondition : Option String → Except McpErr (List String × Bool)
  | none => .ok ([], false)
  | some p =>
    let t := rustTrim p
    if strIsEmpty t then .ok ([], false)
    else if hasBadChars t then .error purposeCharsErr
    else .ok ([purposeFragment t], true)

def revenueCondition : Option (F64 × F64) → Except McpErr (List String)
  | none => .ok []
  | some (mn, mx) =>
    if F64.gt mn mx then .error revOrderErr
    else if F64.isNeg mn || F64.isNeg mx then .error revNegErr
    else .ok [revenueFragment mn mx]

def employeeCondition : Option (F64 × F64) → Except McpErr (List String)
  | none => .ok []
  | some (mn, mx) =>
    if F64.gt mn mx then .error empOrderErr
    else if F64.isNeg mn || F64.isNeg mx then .error empNegErr
    else .ok [employeeFragment mn mx]

/-! ### Assembly of the final query string -/

def baseSelect : String := "SELECT * FROM hello_nest WHERE 1=1"

def plainOrderSuffix : String := " ORDER BY company_name LIMIT 1000"

def textOrderPre : String := " ORDER BY fts_main_hello_nest.match_bm25(company_id, '"

def textOrderPost : String := "') DESC, company_name LIMIT 1000"

def textOrderSuffix (esc : String) : String := textOrderPre ++ esc ++ textOrderPost

/-- What the `has_text_search` ORDER BY branch of src/tool.rs appends between
its two literals: the trimmed purpose with single quotes doubled (or nothing
when the field is absent). -/
def orderEscape : Option String → String
  | some p => escQuotes (rustTrim p)
  | none => ""

def assembleSql (conds : List String) (hasText : Bool) (op : Option String) : String :=
  (if conds.isEmpty then baseSelect else baseSelect ++ " AND " ++ joinSep " AND " conds) ++
  (if hasText then textOrderSuffix (orderEscape op) else plainOrderSuffix)

/-- `build_company_search_query` of src/tool.rs: field blocks are evaluated in
source order with early return on the first validation error. -/
def build_company_search_query (r : SearchRequest) : Except McpErr String :=
  match nameCondition r.company_name with
  | .error e => .error e
  | .ok c1 =>
    match yearCondition r.foundation_year with
    | .error e => .error e
    | .ok c2 =>
      match naceCondition r.nace_categories with
      | .error e => .error e
      | .ok c3 =>
        match purposeCondition r.company_purpose with
        | .error e => .error e
        | .ok (c4, hasText) =>
          match revenueCondition r.revenue_range with
          | .error e => .error e
          | .ok c5 =>
            match employeeCondition r.employee_range with
            | .error e => .error e
            | .ok c6 =>
              .ok (assembleSql (c1 ++ c2 ++ c3 ++ c4 ++ c5 ++ c6) hasText r.company_purpose)

/-- Is a purpose text supplied and non-empty after trimming?  This is the
condition under which src/tool.rs sets `has_text_search`. -/
def purposeActiveOpt : Option String → Bool
  | some p => !strIsEmpty (rustTrim p)
  | none => false

/-- Is a non-skipped purpose text present in the request? -/
def purposeActive (r : SearchRequest) : Bool := purposeActiveOpt r.company_purpose

/-! ### Named single-field requests used in statements and witnesses -/

def emptyRequest : SearchRequest := {}

def nameOnly (s : String) : SearchRequest := { company_name := some s }

def yearOnly (lo hi : Int) : SearchRequest := { foundation_year := some (lo, hi) }

def naceOnly (cats : List String) : SearchRequest := { nace_categories := some cats }

def purposeOnly (p : String) : SearchRequest := { company_purpose := some p }

def revenueOnly (mn mx : F64) : SearchRequest := { revenue_range := some (mn, mx) }

def employeeOnly (mn mx : F64) : SearchRequest := { employee_range := some (mn, mx) }

/-! ### Model of the perimeter gate (src/auth.rs) -/

/-- An incoming HTTP request as seen by the axum middleware: method, path and
(name, value) headers, all lowercase-normalized names. -/
structure HttpRequest where
  method : String
  path : String
  headers : List (String × String)

/-- The middleware's outcome: either the request is forwarded to the inner
handler, or it is answered directly with 403 and the structured JSON body. -/
inductive GateOutcome where
  | forwarded : GateOutcome
  | blocked403 (body : String) : GateOutcome
deriving DecidableEq

/-- The structured 403 body of src/auth.rs. -/
def forbiddenBody : String :=
  "\x7b\"error\":\"forbidden\",\"message\":\"Only requests from claude.ai are allowed\"\x7d"

/-- `is_from_claude` of src/auth.rs: ignores its argument and returns true. -/
def is_from_claude (_headers : List (String × String)) : Bool := true

/-- `claude_only_middleware` of src/auth.rs. -/
def claude_only_middleware (req : HttpRequest) : GateOutcome :=
  if req.method == "OPTIONS" then .forwarded
  else if startsWithL "/.well-known".data req.path.data then .forwarded
  else if is_from_claude req.headers then .forwarded
  else .blocked403 forbiddenBody

/-- Modelled from the spec and from the doc comment of `is_from_claude` in
src/auth.rs (the code itself performs no header inspection): allow when the
User-Agent contains "Claude" or "claude.ai", or the Origin or Referer header
contains "claude.ai". -/
def is_from_claude_documented (headers : List (String × String)) : Bool :=
  headers.any fun nv =>
    (nv.1 == "user-agent" && (containsStr nv.2 "Claude" || containsStr nv.2 "claude.ai")) ||
    ((nv.1 == "origin" || nv.1 == "referer") && containsStr nv.2 "claude.ai")

/-! ### Model of the raw-query path (src/duckdb.rs `query_all_json`) -/

/-- The character class stripped from the tail of a raw query:
`trim_end_matches([';', '\n'])`. -/
def isSemiNl (c : Char) : Bool := c == ';' || c == '\n'

/-- `sql.trim_end_matches([';', '\n']).trim()` of src/duckdb.rs. -/
def rawStrip (s : String) : String := ⟨rustTrimL (dropTrailingL isSemiNl s.data)⟩

def jsonWrapPre : String :=
  "SELECT COALESCE(json_group_array(to_json(row_data)), '[]') FROM ("

def jsonWrapPost : String := ") as row_data"

/-- The SQL string `DuckDB::query_all_json` prepares and executes for a
submitted query. -/
def query_all_json_sql (sql : String) : String :=
  jsonWrapPre ++ rawStrip sql ++ jsonWrapPost

/-- `Tool::company` (the `company-sql` tool of src/tool.rs) forwards the
caller's SQL string unchanged to `query_all_json`. -/
def companyToolSql (sql : String) : String := query_all_json_sql sql

/-! ### Concrete requests and fragment constants used in the claim statements -/

def emptySql : String := "SELECT * FROM hello_nest WHERE 1=1 ORDER BY company_name LIMIT 1000"

/-- A non-preflight request to the message endpoint with no Claude identity
signal in any header. -/
def nonClaudeRequest : HttpRequest :=
  { method := "POST", path := "/message",
    headers := [("user-agent", "curl/8.5.0"), ("accept", "text/event-stream")] }

/-- A request combining an inverted year range with a blacklisted NACE
category entry. -/
def c4BadRequest : SearchRequest :=
  { foundation_year := some (2025, 1900), nace_categories := some ["';"] }

/-- The struct-access path for one (year, metric) pair, as interpolated in
the `VALUES` rows of src/tool.rs. -/
def metricPath (year metric : String) : String :=
  "financial_data['" ++ year ++ "']['" ++ metric ++ "']"

/-- The fixed year labels enumerated by both numeric range fragments. -/
def yearLabels : List String :=
  ["2016", "2017", "2018", "2019", "2020", "2021", "2022", "2023", "2024"]

/-- The revenue fragment head up to (but excluding) its `BETWEEN ` keyword. -/
def revenueFragmentPreA : String :=
  "EXISTS (SELECT 1 FROM (VALUES\n" ++
  "                (financial_data['2016']['Sales revenues']),\n" ++
  "                (financial_data['2017']['Sales revenues']),\n" ++
  "                (financial_data['2018']['Sales revenues']),\n" ++
  "                (financial_data['2019']['Sales revenues']),\n" ++
  "                (financial_data['2020']['Sales revenues']),\n" ++
  "                (financial_data['2021']['Sales revenues']),\n" ++
  "                (financial_data['2022']['Sales revenues']),\n" ++
  "                (financial_data['2023']['Sales revenues']),\n" ++
  "                (financial_data['2024']['Sales revenues'])\n" ++
  "            ) AS revenue_data(revenue)\n" ++
  "            WHERE revenue IS NOT NULL AND revenue "

/-- The employee fragment head up to (but excluding) its `BETWEEN ` keyword. -/
def employeeFragmentPreA : String :=
  "EXISTS (SELECT 1 FROM (VALUES\n" ++
  "                (financial_data['2016']['Employees from accounting']),\n" ++
  "                (financial_data['2017']['Employees from accounting']),\n" ++
  "                (financial_data['2018']['Employees from accounting']),\n" ++
  "                (financial_data['2019']['Employees from accounting']),\n" ++
  "                (financial_data['2020']['Employees from accounting']),\n" ++
  "                (financial_data['2021']['Employees from accounting']),\n" ++
  "                (financial_data['2022']['Employees from accounting']),\n" ++
  "                (financial_data['2023']['Employees from accounting']),\n" ++
  "                (financial_data['2024']['Employees from accounting'])\n" ++
  "            ) AS employee_data(employees)\n" ++
  "            WHERE employees IS NOT NULL AND employees "

def revLow : F64 := F64.fin 1000000 "1000000"

def revHigh : F64 := F64.fin 5000000 "5000000"

def empLow : F64 := F64.fin 10 "10"

def empHigh : F64 := F64.fin 100 "100"

/-- The query compiled for the concrete purpose text "energi". -/
def c8wSql : String :=
  baseSelect ++ " AND " ++ purposeFragment (rustTrim "energi") ++
    textOrderSuffix (escQuotes (rustTrim "energi"))

/-! ### Helper lemmas about the string operations -/

theorem strData_append (a b : String) : (a ++ b).data = a.data ++ b.data := by
  cases a; cases b; rfl

theorem subOccursL_nil_pat (l : List Char) : subOccursL [] l = true := by
  induction l with
  | nil => rfl
  | cons c rest ih => simp [subOccursL, startsWithL, ih]

theorem startsWithL_self_append (pat rest : List Char) :
    startsWithL pat (pat ++ rest) = true := by
  induction pat with
  | nil => rfl
  | cons p ps ih => simp [startsWithL, ih]

theorem subOccursL_self_append (pat rest : List Char) :
    subOccursL pat (pat ++ rest) = true := by
  cases pat with
  | nil => exact subOccursL_nil_pat rest
  | cons p ps =>
    show subOccursL (p :: ps) (p :: (ps ++ rest)) = true
    simp [subOccursL]
    exact Or.inl (startsWithL_self_append (p :: ps) rest)

theorem subOccursL_append_right (pat a b : List Char) (h : subOccursL pat b = true) :
    subOccursL pat (a ++ b) = true := by
  induction a with
  | nil => simpa using h
  | cons c a' ih => simp [subOccursL, ih]

theorem subOccursL_cons (pat : List Char) (c : Char) (rest : List Char)
    (h : subOccursL pat rest = true) : subOccursL pat (c :: rest) = true := by
  simp [subOccursL, h]

theorem subOccursL_append_left (pat a b : List Char) (h : subOccursL pat a = true) :
    subOccursL pat (a ++ b) = true := by
  induction a with
  | nil =>
    cases pat with
    | nil => exact subOccursL_nil_pat b
    | cons p ps => simp [subOccursL, startsWithL] at h
  | cons c a' ih =>
    have h' : startsWithL pat (c :: a') = true ∨ subOccursL pat a' = true := by
      simpa [subOccursL, Bool.or_eq_true] using h
    cases h' with
    | inl hs =>
      -- `pat` starts right here; extend the match into `a' ++ b`.
      have : startsWithL pat ((c :: a') ++ b) = true := by
        clear ih h
        induction pat generalizing c a' with
        | nil => rfl
        | cons p ps ihp =>
          cases a' with
          | nil =>
            have := hs
            simp [startsWithL] at this
            rcases this with ⟨h1, h2⟩
            cases ps with
            | nil => simp [startsWithL, h1, startsWithL_self_append]
            | cons q qs => simp [startsWithL] at h2
          | cons d a'' =>
            have := hs
            simp [startsWithL] at this
            rcases this with ⟨h1, h2⟩
            have := ihp d a'' (by simpa [startsWithL] using h2)
            simp [startsWithL, h1]
            simpa using this
      show subOccursL pat ((c :: a') ++ b) = true
      simp [subOccursL]
      exact Or.inl this
    | inr hr => exact subOccursL_cons _ _ _ (ih hr)

theorem containsStr_append_right (a b pat : String) (h : containsStr b pat = true) :
    containsStr (a ++ b) pat = true := by
  unfold containsStr at *
  rw [strData_append]
  exact subOccursL_append_right _ _ _ h

theorem containsStr_append_left (a b pat : String) (h : containsStr a pat = true) :
    containsStr (a ++ b) pat = true := by
  unfold containsStr at *
  rw [strData_append]
  exact subOccursL_append_left _ _ _ h

theorem containsStr_refl (s : String) : containsStr s s = true := by
  unfold containsStr
  have := subOccursL_self_append s.data []
  simpa using this

/-- A member of a string list occurs in the `join` of that list. -/
theorem mem_joinSep (sep : String) (l : List String) (s : String) (h : s ∈ l) :
    containsStr (joinSep sep l) s = true := by
  induction l with
  | nil => cases h
  | cons x rest ih =>
    cases rest with
    | nil =>
      have : s = x := by simpa using h
      subst this
      exact containsStr_refl s
    | cons y ys =>
      rcases List.mem_cons.mp h with h1 | h2
      · subst h1
        show containsStr (s ++ sep ++ joinSep sep (y :: ys)) s = true
        exact containsStr_append_left _ _ _ (containsStr_append_left _ _ _ (containsStr_refl s))
      · show containsStr (x ++ sep ++ joinSep sep (y :: ys)) s = true
        exact containsStr_append_right _ _ _ (ih h2)

/-! ### Inversion of the compiler -/

/-- A successful compilation decomposes into successful per-field compilations
and the standard assembly of their fragments. -/
theorem build_ok_inv (r : SearchRequest) (sql : String)
    (h : build_company_search_query r = .ok sql) :
    ∃ c1 c2 c3 c4 ht c5 c6,
      nameCondition r.company_name = .ok c1 ∧
      yearCondition r.foundation_year = .ok c2 ∧
      naceCondition r.nace_categories = .ok c3 ∧
      purposeCondition r.company_purpose = .ok (c4, ht) ∧
      revenueCondition r.revenue_range = .ok c5 ∧
      employeeCondition r.employee_range = .ok c6 ∧
      sql = assembleSql (c1 ++ c2 ++ c3 ++ c4 ++ c5 ++ c6) ht r.company_purpose := by
  unfold build_company_search_query at h
  cases h1 : nameCondition r.company_name with
  | error e => rw [h1] at h; cases h
  | ok c1 =>
    rw [h1] at h
    cases h2 : yearCondition r.foundation_year with
    | error e => rw [h2] at h; cases h
    | ok c2 =>
      rw [h2] at h
      cases h3 : naceCondition r.nace_categories with
      | error e => rw [h3] at h; cases h
      | ok c3 =>
        rw [h3] at h
        cases h4 : purposeCondition r.company_purpose with
        | error e => rw [h4] at h; cases h
        | ok pr =>
          obtain ⟨c4, ht⟩ := pr
          rw [h4] at h
          cases h5 : revenueCondition r.revenue_range with
          | error e => rw [h5] at h; cases h
          | ok c5 =>
            rw [h5] at h
            cases h6 : employeeCondition r.employee_range with
            | error e => rw [h6] at h; cases h
            | ok c6 =>
              rw [h6] at h
              refine ⟨c1, c2, c3, c4, ht, c5, c6, rfl, rfl, rfl, rfl, rfl, rfl, ?_⟩
              exact (Except.ok.injEq _ _ ▸ h).symm

/-- The `has_text_search` flag is exactly "purpose supplied and non-blank",
and in the `true` case the fragment is the bm25 predicate on the trimmed
purpose (which passed the blacklist). -/
theorem purposeCondition_inv (op : Option String) (c4 : List String) (ht : Bool)
    (h : purposeCondition op = .ok (c4, ht)) :
    ht = purposeActiveOpt op ∧
    (ht = true → ∃ p, op = some p ∧ hasBadChars (rustTrim p) = false ∧
      c4 = [purposeFragment (rustTrim p)]) ∧
    (ht = false → c4 = []) := by
  cases op with
  | none =>
    simp only [purposeCondition, Except.ok.injEq, Prod.mk.injEq] at h
    obtain ⟨hc, hb⟩ := h
    subst hc; subst hb
    refine ⟨rfl, ?_, fun _ => rfl⟩
    intro hh; simp at hh
  | some p =>
    simp only [purposeCondition] at h
    by_cases he : strIsEmpty (rustTrim p) = true
    · rw [if_pos he] at h
      simp only [Except.ok.injEq, Prod.mk.injEq] at h
      obtain ⟨hc, hb⟩ := h
      subst hc; subst hb
      refine ⟨by simp [purposeActiveOpt, he], ?_, fun _ => rfl⟩
      intro hh; simp at hh
    · rw [if_neg he] at h
      by_cases hbad : hasBadChars (rustTrim p) = true
      · rw [if_pos hbad] at h; cases h
      · rw [if_neg hbad] at h
        simp only [Except.ok.injEq, Prod.mk.injEq] at h
        obtain ⟨hc, hb⟩ := h
        subst hc; subst hb
        have he' : strIsEmpty (rustTrim p) = false := Bool.not_eq_true _ ▸ eq_false_of_ne_true he
        have hbad' : hasBadChars (rustTrim p) = false := eq_false_of_ne_true hbad
        refine ⟨by simp [purposeActiveOpt, he'], ?_, ?_⟩
        · intro _; exact ⟨p, rfl, hbad', rfl⟩
        · intro hh; simp at hh

/-! ### Blacklist and escaping lemmas -/

theorem squote_data : "'".data = [squote] := by decide

/-- If a character list does not contain a single quote, quote-doubling is
the identity on it. -/
theorem escQuotesL_of_no_squote (l : List Char) (h : subOccursL [squote] l = false) :
    escQuotesL l = l := by
  induction l with
  | nil => rfl
  | cons c cs ih =>
    simp only [subOccursL, startsWithL, Bool.or_eq_false_iff, Bool.and_eq_false_iff] at h
    obtain ⟨h1, h2⟩ := h
    have hc : (c == squote) = false := by
      rcases h1 with h1 | h1
      · cases hlit : (c == squote) with
        | false => rfl
        | true =>
          have : c = squote := by simpa using hlit
          subst this
          simp at h1
      · simp at h1
    simp [escQuotesL, hc, ih h2]

/-- An accepted (blacklist-passing) string contains no single quote, so
quote-doubling leaves it unchanged. -/
theorem escQuotes_of_clean (t : String) (h : hasBadChars t = false) : escQuotes t = t := by
  have hq : containsStr t "'" = false := by
    simp only [hasBadChars, Bool.or_eq_false_iff] at h
    exact h.1.1
  cases t with
  | mk d =>
    show String.mk (escQuotesL d) = String.mk d
    have : subOccursL [squote] d = false := by
      have := hq
      rw [containsStr, squote_data] at this
      exact this
    rw [escQuotesL_of_no_squote d this]

/-- A string passing the blacklist check positively (i.e. failing validation)
is non-empty. -/
theorem hasBadChars_ne_empty (t : String) (h : hasBadChars t = true) : strIsEmpty t = false := by
  cases t with
  | mk d =>
    cases d with
    | nil => exact absurd h (by decide)
    | cons c cs => rfl

/-! ### The NACE category loop -/

/-- If any entry of the list has unsafe characters after trimming, the loop
of src/tool.rs rejects the whole request with the NACE validation error. -/
theorem naceConds_bad (cats : List String) (c : String) (hc : c ∈ cats)
    (hbad : hasBadChars (rustTrim c) = true) : naceConds cats = .error naceCharsErr := by
  induction cats with
  | nil => cases hc
  | cons x rest ih =>
    rcases List.mem_cons.mp hc with h1 | h2
    · subst h1
      have hne := hasBadChars_ne_empty _ hbad
      simp [naceConds, hne, hbad]
    · by_cases hx : strIsEmpty (rustTrim x) = true
      · simpa [naceConds, hx] using ih h2
      · have hx' : strIsEmpty (rustTrim x) = false := eq_false_of_ne_true hx
        by_cases hbx : hasBadChars (rustTrim x) = true
        · simp [naceConds, hx', hbx]
        · have hbx' : hasBadChars (rustTrim x) = false := eq_false_of_ne_true hbx
          simp [naceConds, hx', hbx', ih h2]

/-! ### Trim and strip decomposition lemmas -/

theorem dropWhile_eats (p : Char → Bool) (l : List Char) :
    ∃ pre, l = pre ++ l.dropWhile p := by
  induction l with
  | nil => exact ⟨[], rfl⟩
  | cons c cs ih =>
    by_cases h : p c = true
    · obtain ⟨pre, hp⟩ := ih
      refine ⟨c :: pre, ?_⟩
      simp only [List.dropWhile_cons, h, if_true]
      simpa using hp
    · refine ⟨[], ?_⟩
      have h' : p c = false := eq_false_of_ne_true h
      simp [List.dropWhile_cons, h']

theorem dropTrailing_eats (p : Char → Bool) (l : List Char) :
    ∃ post, l = dropTrailingL p l ++ post := by
  obtain ⟨pre, hp⟩ := dropWhile_eats p l.reverse
  refine ⟨pre.reverse, ?_⟩
  calc l = l.reverse.reverse := (List.reverse_reverse l).symm
    _ = (pre ++ l.reverse.dropWhile p).reverse := by rw [← hp]
    _ = (l.reverse.dropWhile p).reverse ++ pre.reverse := by rw [List.reverse_append]
    _ = dropTrailingL p l ++ pre.reverse := rfl

/-- The stripped core is a verbatim contiguous piece of the submitted string:
nothing is escaped, rewritten or validated. -/
theorem rawStrip_verbatim (s : String) :
    ∃ pre post, s.data = pre ++ (rawStrip s).data ++ post := by
  obtain ⟨post1, h1⟩ := dropTrailing_eats isSemiNl s.data
  obtain ⟨pre2, h2⟩ := dropWhile_eats isWsChar (dropTrailingL isSemiNl s.data)
  obtain ⟨post3, h3⟩ :=
    dropTrailing_eats isWsChar ((dropTrailingL isSemiNl s.data).dropWhile isWsChar)
  refine ⟨pre2, post3 ++ post1, ?_⟩
  calc s.data = dropTrailingL isSemiNl s.data ++ post1 := h1
    _ = (pre2 ++ (dropTrailingL isSemiNl s.data).dropWhile isWsChar) ++ post1 := by
        rw [← h2]
    _ = (pre2 ++ ((rawStrip s).data ++ post3)) ++ post1 := by
        have hr : (rawStrip s).data =
            dropTrailingL isWsChar ((dropTrailingL isSemiNl s.data).dropWhile isWsChar) := rfl
        rw [hr, ← h3]
    _ = pre2 ++ (rawStrip s).data ++ (post3 ++ post1) := by
        simp [List.append_assoc]

/-! ### Per-field condition facts -/

theorem nameCondition_bad (s : String) (h : hasBadChars (rustTrim s) = true) :
    nameCondition (some s) = .error nameCharsErr := by
  simp only [nameCondition]
  rw [if_neg (by simp [hasBadChars_ne_empty _ h]), if_pos (by simp [h])]

theorem yearCondition_orderErr (lo hi : Int) (h : lo > hi) :
    yearCondition (some (lo, hi)) = .error yearOrderErr := by
  simp only [yearCondition]
  rw [if_pos h]

theorem yearCondition_ok_eq (y : Int) (h1 : 1800 ≤ y) (h2 : y ≤ 2024) :
    yearCondition (some (y, y)) = .ok [yearFragment y y] := by
  simp only [yearCondition]
  rw [if_neg (lt_irrefl y)]
  have ha : ¬ (y < 1800) := not_lt.mpr h1
  have hb : ¬ (2024 < y) := not_lt.mpr h2
  simp [ha, hb]

theorem revenueCondition_ok (mn mx : F64) (h1 : F64.gt mn mx = false)
    (h2 : F64.isNeg mn = false) (h3 : F64.isNeg mx = false) :
    revenueCondition (some (mn, mx)) = .ok [revenueFragment mn mx] := by
  simp only [revenueCondition]
  rw [if_neg (by simp [h1]), if_neg (by simp [h2, h3])]

theorem revenueCondition_gtErr (mn mx : F64) (h : F64.gt mn mx = true) :
    revenueCondition (some (mn, mx)) = .error revOrderErr := by
  simp only [revenueCondition]
  rw [if_pos (by simp [h])]

theorem employeeCondition_ok (mn mx : F64) (h1 : F64.gt mn mx = false)
    (h2 : F64.isNeg mn = false) (h3 : F64.isNeg mx = false) :
    employeeCondition (some (mn, mx)) = .ok [employeeFragment mn mx] := by
  simp only [employeeCondition]
  rw [if_neg (by simp [h1]), if_neg (by simp [h2, h3])]

theorem employeeCondition_gtErr (mn mx : F64) (h : F64.gt mn mx = true) :
    employeeCondition (some (mn, mx)) = .error empOrderErr := by
  simp only [employeeCondition]
  rw [if_pos (by simp [h])]

theorem purposeCondition_bad (p : String) (hne : strIsEmpty (rustTrim p) = false)
    (hbad : hasBadChars (rustTrim p) = true) :
    purposeCondition (some p) = .error purposeCharsErr := by
  simp only [purposeCondition]
  rw [if_neg (by simp [hne]), if_pos (by simp [hbad])]

theorem purposeCondition_good (p : String) (hne : strIsEmpty (rustTrim p) = false)
    (hclean : hasBadChars (rustTrim p) = false) :
    purposeCondition (some p) = .ok ([purposeFragment (rustTrim p)], true) := by
  simp only [purposeCondition]
  rw [if_neg (by simp [hne]), if_neg (by simp [hclean])]

/-! ### Reduction of the compiler on single-field requests -/

theorem build_yearOnly_eq (lo hi : Int) :
    build_company_search_query (yearOnly lo hi) =
      (match yearCondition (some (lo, hi)) with
       | .error e => .error e
       | .ok c2 => .ok (assembleSql (c2 ++ [] ++ [] ++ [] ++ []) false none)) := rfl

theorem build_revenueOnly_eq (mn mx : F64) :
    build_company_search_query (revenueOnly mn mx) =
      (match revenueCondition (some (mn, mx)) with
       | .error e => .error e
       | .ok c5 => .ok (assembleSql (c5 ++ []) false none)) := rfl

theorem build_employeeOnly_eq (mn mx : F64) :
    build_company_search_query (employeeOnly mn mx) =
      (match employeeCondition (some (mn, mx)) with
       | .error e => .error e
       | .ok c6 => .ok (assembleSql c6 false none)) := rfl

theorem build_purposeOnly_eq (p : String) :
    build_company_search_query (purposeOnly p) =
      (match purposeCondition (some p) with
       | .error e => .error e
       | .ok (c4, ht) => .ok (assembleSql (c4 ++ [] ++ []) ht (some p))) := rfl

set_option maxRecDepth 40000

set_option maxHeartbeats 1600000

/-! ### Claim C7 -/

/-- C7: the empty filter request (every optional field absent) compiles
successfully to exactly the unconstrained query
`SELECT * FROM hello_nest WHERE 1=1 ORDER BY company_name LIMIT 1000`,
which contains no AND clause. -/
theorem c7_empty_request_unconstrained :
    build_company_search_query emptyRequest = .ok emptySql ∧
    containsStr emptySql " AND " = false :=
  ⟨rfl, by decide⟩

/-! ### Claim C9 -/

/-- C9: a (NaN, NaN) bound pair satisfies neither `min > max` nor `min < 0`
nor `max < 0` under IEEE comparison, so both numeric range filters accept it
and interpolate `NaN` directly into the BETWEEN clause of the compiled
query. -/
theorem c9_nan_range_accepted :
    F64.gt F64.nan F64.nan = false ∧
    F64.isNeg F64.nan = false ∧
    build_company_search_query (revenueOnly F64.nan F64.nan) =
      .ok (baseSelect ++ " AND " ++ revenueFragment F64.nan F64.nan ++ plainOrderSuffix) ∧
    containsStr (revenueFragment F64.nan F64.nan) "BETWEEN NaN AND NaN)" = true ∧
    build_company_search_query (employeeOnly F64.nan F64.nan) =
      .ok (baseSelect ++ " AND " ++ employeeFragment F64.nan F64.nan ++ plainOrderSuffix) ∧
    containsStr (employeeFragment F64.nan F64.nan) "BETWEEN NaN AND NaN)" = true := by
  refine ⟨rfl, rfl, ?_, by decide, ?_, by decide⟩
  · rw [build_revenueOnly_eq, revenueCondition_ok F64.nan F64.nan rfl rfl rfl]
    rfl
  · rw [build_employeeOnly_eq, employeeCondition_ok F64.nan F64.nan rfl rfl rfl]
    rfl

/-! ### Claim C10 -/

/-- C10: the raw-query tool applies no validation, blacklist or escaping:
the submitted SQL, stripped only of trailing semicolon/newline characters
and surrounding whitespace, reappears verbatim (as a contiguous substring of
the original) inside the JSON-aggregating outer SELECT; in particular a raw
query ending in `;` is still wrapped and executed. -/
theorem c10_raw_query_verbatim :
    (∀ sql : String,
      companyToolSql sql = jsonWrapPre ++ rawStrip sql ++ jsonWrapPost ∧
      ∃ pre post, sql.data = pre ++ (rawStrip sql).data ++ post) ∧
    companyToolSql "SELECT 1;" =
      "SELECT COALESCE(json_group_array(to_json(row_data)), '[]') FROM (SELECT 1) as row_data" ∧
    rawStrip "SELECT 1;\n;;\n" = "SELECT 1" :=
  ⟨fun sql => ⟨rfl, rawStrip_verbatim sql⟩, by decide, by decide⟩

/-! ### Claim C2 -/

/-- C2: the perimeter gate performs no header check at all: `is_from_claude`
ignores the headers and returns true, so a request with no Claude identity
signal (which the documented check would reject) is forwarded to the
handler, and no request whatsoever receives the 403 response. -/
theorem c2_gate_never_blocks :
    claude_only_middleware nonClaudeRequest = .forwarded ∧
    is_from_claude_documented nonClaudeRequest.headers = false ∧
    ∀ req : HttpRequest, claude_only_middleware req = .forwarded := by
  refine ⟨by decide, by decide, ?_⟩
  intro req
  unfold claude_only_middleware
  split
  · rfl
  · split
    · rfl
    · simp [is_from_claude]

/-! ### Claim C3 -/

/-- C3 counterexample: `foundation_year = (1700, 1700)` has low == high, yet
compilation fails (with the calendar-bounds validation error) instead of
succeeding. -/
theorem c3_counterexample_equal_year_rejected :
    build_company_search_query (yearOnly 1700 1700) = .error yearBoundsErr := rfl

/-- C3 (amended): for every range filter, low > high is always rejected with
the filter's ordering validation error; and a pair with low == high compiles
to the exact-match BETWEEN condition provided the bounds also lie in the
filter's valid domain (years within [1800, 2024]; numeric bounds
non-negative). -/
theorem c3_range_validation_amended :
    (∀ lo hi : Int, lo > hi →
      build_company_search_query (yearOnly lo hi) = .error yearOrderErr) ∧
    (∀ mn mx : F64, F64.gt mn mx = true →
      build_company_search_query (revenueOnly mn mx) = .error revOrderErr) ∧
    (∀ mn mx : F64, F64.gt mn mx = true →
      build_company_search_query (employeeOnly mn mx) = .error empOrderErr) ∧
    (∀ y : Int, 1800 ≤ y → y ≤ 2024 →
      build_company_search_query (yearOnly y y) =
        .ok (baseSelect ++ " AND " ++ yearFragment y y ++ plainOrderSuffix)) ∧
    (∀ (q : ℚ) (s : String), 0 ≤ q →
      build_company_search_query (revenueOnly (F64.fin q s) (F64.fin q s)) =
        .ok (baseSelect ++ " AND " ++ revenueFragment (F64.fin q s) (F64.fin q s) ++
          plainOrderSuffix)) ∧
    (∀ (q : ℚ) (s : String), 0 ≤ q →
      build_company_search_query (employeeOnly (F64.fin q s) (F64.fin q s)) =
        .ok (baseSelect ++ " AND " ++ employeeFragment (F64.fin q s) (F64.fin q s) ++
          plainOrderSuffix)) := by
  refine ⟨?_, ?_, ?_, ?_, ?_, ?_⟩
  · intro lo hi h
    rw [build_yearOnly_eq, yearCondition_orderErr _ _ h]
  · intro mn mx h
    rw [build_revenueOnly_eq, revenueCondition_gtErr _ _ h]
  · intro mn mx h
    rw [build_employeeOnly_eq, employeeCondition_gtErr _ _ h]
  · intro y h1 h2
    rw [build_yearOnly_eq, yearCondition_ok_eq y h1 h2]
    rfl
  · intro q s hq
    have hgt : F64.gt (F64.fin q s) (F64.fin q s) = false := by simp [F64.gt]
    have hneg : F64.isNeg (F64.fin q s) = false := by
      simp only [F64.isNeg, decide_eq_false_iff_not, not_lt]
      exact hq
    rw [build_revenueOnly_eq, revenueCondition_ok _ _ hgt hneg hneg]
    rfl
  · intro q s hq
    have hgt : F64.gt (F64.fin q s) (F64.fin q s) = false := by simp [F64.gt]
    have hneg : F64.isNeg (F64.fin q s) = false := by
      simp only [F64.isNeg, decide_eq_false_iff_not, not_lt]
      exact hq
    rw [build_employeeOnly_eq, employeeCondition_ok _ _ hgt hneg hneg]
    rfl

/-- Witness for the amended C3 at concrete inputs. -/
theorem c3_range_validation_amended_witness :
    ((2025 : Int) > 1900 ∧
      build_company_search_query (yearOnly 2025 1900) = .error yearOrderErr) ∧
    (F64.gt (F64.fin 7 "7") (F64.fin 3 "3") = true ∧
      build_company_search_query (revenueOnly (F64.fin 7 "7") (F64.fin 3 "3")) =
        .error revOrderErr) ∧
    (F64.gt (F64.fin 7 "7") (F64.fin 3 "3") = true ∧
      build_company_search_query (employeeOnly (F64.fin 7 "7") (F64.fin 3 "3")) =
        .error empOrderErr) ∧
    ((1800 : Int) ≤ 2010 ∧ (2010 : Int) ≤ 2024 ∧
      build_company_search_query (yearOnly 2010 2010) =
        .ok (baseSelect ++ " AND " ++ yearFragment 2010 2010 ++ plainOrderSuffix)) ∧
    ((0 : ℚ) ≤ 10 ∧
      build_company_search_query (revenueOnly (F64.fin 10 "10") (F64.fin 10 "10")) =
        .ok (baseSelect ++ " AND " ++ revenueFragment (F64.fin 10 "10") (F64.fin 10 "10") ++
          plainOrderSuffix)) ∧
    ((0 : ℚ) ≤ 10 ∧
      build_company_search_query (employeeOnly (F64.fin 10 "10") (F64.fin 10 "10")) =
        .ok (baseSelect ++ " AND " ++ employeeFragment (F64.fin 10 "10") (F64.fin 10 "10") ++
          plainOrderSuffix)) :=
  ⟨⟨by decide, c3_range_validation_amended.1 2025 1900 (by decide)⟩,
   ⟨by decide, c3_range_validation_amended.2.1 _ _ (by decide)⟩,
   ⟨by decide, c3_range_validation_amended.2.2.1 _ _ (by decide)⟩,
   ⟨by decide, by decide, c3_range_validation_amended.2.2.2.1 2010 (by decide) (by decide)⟩,
   ⟨by decide, c3_range_validation_amended.2.2.2.2.1 10 "10" (by decide)⟩,
   ⟨by decide, c3_range_validation_amended.2.2.2.2.2 10 "10" (by decide)⟩⟩

/-! ### Claim C4 -/

/-- C4 counterexample: a request whose NACE list holds a blacklisted entry
but whose year range is also inverted fails with the year-ordering error,
not with an unsafe-character error. -/
theorem c4_counterexample_mixed_error :
    hasBadChars (rustTrim "';") = true ∧
    build_company_search_query c4BadRequest = .error yearOrderErr ∧
    decide (yearOrderErr = nameCharsErr) = false ∧
    decide (yearOrderErr = naceCharsErr) = false ∧
    decide (yearOrderErr = purposeCharsErr) = false :=
  ⟨by decide, rfl, by decide, by decide, by decide⟩

/-- C4 (amended): a blacklisted company name always fails with the
name-specific unsafe-character error (the name is validated first); a
blacklisted NACE entry fails with the NACE-specific unsafe-character error
whenever the fields validated before it (company name, foundation year) pass
their checks.  In both cases no query string is produced. -/
theorem c4_unsafe_chars_amended :
    (∀ (r : SearchRequest) (s : String), r.company_name = some s →
      hasBadChars (rustTrim s) = true →
      build_company_search_query r = .error nameCharsErr) ∧
    (∀ (r : SearchRequest) (c1 c2 : List String) (cats : List String) (c : String),
      nameCondition r.company_name = .ok c1 →
      yearCondition r.foundation_year = .ok c2 →
      r.nace_categories = some cats → c ∈ cats →
      hasBadChars (rustTrim c) = true →
      build_company_search_query r = .error naceCharsErr) := by
  constructor
  · intro r s hn hbad
    unfold build_company_search_query
    rw [hn, nameCondition_bad s hbad]
  · intro r c1 c2 cats c h1 h2 hcats hc hbad
    unfold build_company_search_query
    rw [h1, h2, hcats]
    have hcatsne : cats.isEmpty = false := by
      cases cats with
      | nil => cases hc
      | cons a as => rfl
    have hnc : naceCondition (some cats) = .error naceCharsErr := by
      simp only [naceCondition]
      rw [if_neg (by simp [hcatsne]), naceConds_bad cats c hc hbad]
    rw [hnc]

/-- Witness for the amended C4 at concrete inputs. -/
theorem c4_unsafe_chars_amended_witness :
    (nameOnly "x'; DROP--").company_name = some "x'; DROP--" ∧
    hasBadChars (rustTrim "x'; DROP--") = true ∧
    build_company_search_query (nameOnly "x'; DROP--") = .error nameCharsErr ∧
    nameCondition (naceOnly ["62010", "bad;cat"]).company_name = .ok [] ∧
    yearCondition (naceOnly ["62010", "bad;cat"]).foundation_year = .ok [] ∧
    (naceOnly ["62010", "bad;cat"]).nace_categories = some ["62010", "bad;cat"] ∧
    "bad;cat" ∈ ["62010", "bad;cat"] ∧
    hasBadChars (rustTrim "bad;cat") = true ∧
    build_company_search_query (naceOnly ["62010", "bad;cat"]) = .error naceCharsErr :=
  ⟨rfl, by decide,
   c4_unsafe_chars_amended.1 (nameOnly "x'; DROP--") "x'; DROP--" rfl (by decide),
   rfl, rfl, rfl, by decide, by decide,
   c4_unsafe_chars_amended.2 (naceOnly ["62010", "bad;cat"]) [] [] ["62010", "bad;cat"]
     "bad;cat" rfl rfl rfl (by decide) (by decide)⟩

/-! ### Claim C1 -/

/-- C1 counterexample: a purpose text that is non-empty after trimming but
holds a single quote is rejected by the blacklist instead of being
accepted. -/
theorem c1_counterexample_blacklisted_purpose :
    strIsEmpty (rustTrim "it's") = false ∧
    build_company_search_query (purposeOnly "it's") = .error purposeCharsErr :=
  ⟨by decide, rfl⟩

/-- C1 (amended): the purpose text IS blacklist-checked exactly like the
name and category fields: a trimmed-non-empty purpose containing a quote,
semicolon or `--` is rejected with the purpose unsafe-character error; any
other trimmed-non-empty purpose is accepted, its trimmed text flowing into
the bm25 ranking predicate and (quote-escaped) into the ORDER BY ranking
call. -/
theorem c1_purpose_blacklist_amended (p : String)
    (hne : strIsEmpty (rustTrim p) = false) :
    (hasBadChars (rustTrim p) = true →
      build_company_search_query (purposeOnly p) = .error purposeCharsErr) ∧
    (hasBadChars (rustTrim p) = false →
      build_company_search_query (purposeOnly p) =
        .ok (baseSelect ++ " AND " ++ purposeFragment (rustTrim p) ++
          textOrderSuffix (escQuotes (rustTrim p)))) := by
  constructor
  · intro hbad
    rw [build_purposeOnly_eq, purposeCondition_bad p hne hbad]
  · intro hclean
    rw [build_purposeOnly_eq, purposeCondition_good p hne hclean]
    rfl

/-- Witness for the amended C1 at concrete inputs. -/
theorem c1_purpose_blacklist_amended_witness :
    strIsEmpty (rustTrim "byggverksamhet") = false ∧
    hasBadChars (rustTrim "byggverksamhet") = false ∧
    build_company_search_query (purposeOnly "byggverksamhet") =
      .ok (baseSelect ++ " AND " ++ purposeFragment (rustTrim "byggverksamhet") ++
        textOrderSuffix (escQuotes (rustTrim "byggverksamhet"))) :=
  ⟨by decide, by decide,
   (c1_purpose_blacklist_amended "byggverksamhet" (by decide)).2 (by decide)⟩

/-! ### Claim C5 -/

theorem revenueFragmentPre_split :
    revenueFragmentPre = revenueFragmentPreA ++ "BETWEEN " := by decide

theorem employeeFragmentPre_split :
    employeeFragmentPre = employeeFragmentPreA ++ "BETWEEN " := by decide

/-- C5: every accepted revenue or employee range compiles to the EXISTS
fragment whose constant head enumerates each of the nine year labels
2016-2024 exactly once via the corresponding metric path, requires the
metric value to be non-null, and whose BETWEEN clause carries the supplied
bounds verbatim. -/
theorem c5_range_fragment_years (rmn rmx emn emx : F64)
    (hr1 : F64.gt rmn rmx = false) (hr2 : F64.isNeg rmn = false)
    (hr3 : F64.isNeg rmx = false)
    (he1 : F64.gt emn emx = false) (he2 : F64.isNeg emn = false)
    (he3 : F64.isNeg emx = false) :
    build_company_search_query (revenueOnly rmn rmx) =
      .ok (baseSelect ++ " AND " ++ revenueFragment rmn rmx ++ plainOrderSuffix) ∧
    revenueFragment rmn rmx =
      revenueFragmentPreA ++ "BETWEEN " ++ rmn.toStr ++ " AND " ++ rmx.toStr ++ ")" ∧
    (∀ y ∈ yearLabels,
      subCountStr revenueFragmentPre (metricPath y "Sales revenues") = 1) ∧
    containsStr revenueFragmentPre "IS NOT NULL" = true ∧
    build_company_search_query (employeeOnly emn emx) =
      .ok (baseSelect ++ " AND " ++ employeeFragment emn emx ++ plainOrderSuffix) ∧
    employeeFragment emn emx =
      employeeFragmentPreA ++ "BETWEEN " ++ emn.toStr ++ " AND " ++ emx.toStr ++ ")" ∧
    (∀ y ∈ yearLabels,
      subCountStr employeeFragmentPre (metricPath y "Employees from accounting") = 1) ∧
    containsStr employeeFragmentPre "IS NOT NULL" = true := by
  refine ⟨?_, ?_, by decide, by decide, ?_, ?_, by decide, by decide⟩
  · rw [build_revenueOnly_eq, revenueCondition_ok _ _ hr1 hr2 hr3]
    rfl
  · unfold revenueFragment
    rw [revenueFragmentPre_split]
  · rw [build_employeeOnly_eq, employeeCondition_ok _ _ he1 he2 he3]
    rfl
  · unfold employeeFragment
    rw [employeeFragmentPre_split]

/-- Witness for C5 on the bounds of the repository's own unit tests. -/
theorem c5_range_fragment_years_witness :
    build_company_search_query (revenueOnly revLow revHigh) =
      .ok (baseSelect ++ " AND " ++ revenueFragment revLow revHigh ++ plainOrderSuffix) ∧
    revenueFragment revLow revHigh =
      revenueFragmentPreA ++ "BETWEEN " ++ revLow.toStr ++ " AND " ++ revHigh.toStr ++ ")" ∧
    (∀ y ∈ yearLabels,
      subCountStr revenueFragmentPre (metricPath y "Sales revenues") = 1) ∧
    containsStr revenueFragmentPre "IS NOT NULL" = true ∧
    build_company_search_query (employeeOnly empLow empHigh) =
      .ok (baseSelect ++ " AND " ++ employeeFragment empLow empHigh ++ plainOrderSuffix) ∧
    employeeFragment empLow empHigh =
      employeeFragmentPreA ++ "BETWEEN " ++ empLow.toStr ++ " AND " ++ empHigh.toStr ++ ")" ∧
    (∀ y ∈ yearLabels,
      subCountStr employeeFragmentPre (metricPath y "Employees from accounting") = 1) ∧
    containsStr employeeFragmentPre "IS NOT NULL" = true :=
  c5_range_fragment_years revLow revHigh empLow empHigh
    (by decide) (by decide) (by decide) (by decide) (by decide) (by decide)

/-! ### Claim C6 -/

/-- C6: every successfully compiled query ends with the bm25 ORDER BY
suffix (relevance descending, then company_name, then LIMIT 1000) when a
non-skipped purpose text is present, and with the plain
`ORDER BY company_name LIMIT 1000` suffix otherwise; the 1000-row cap is
present in every compiled query. -/
theorem c6_order_and_limit (r : SearchRequest) (sql : String)
    (h : build_company_search_query r = .ok sql) :
    (purposeActive r = true →
      ∃ pre, sql = pre ++ textOrderSuffix (orderEscape r.company_purpose)) ∧
    (purposeActive r = false → ∃ pre, sql = pre ++ plainOrderSuffix) ∧
    containsStr sql "LIMIT 1000" = true := by
  obtain ⟨c1, c2, c3, c4, ht, c5, c6, h1, h2, h3, h4, h5, h6, hsql⟩ := build_ok_inv r sql h
  obtain ⟨hflag, -, -⟩ := purposeCondition_inv _ _ _ h4
  have hflag' : ht = purposeActive r := hflag
  refine ⟨?_, ?_, ?_⟩
  · intro hact
    have hht : ht = true := by rw [hflag', hact]
    subst hht
    refine ⟨if (c1 ++ c2 ++ c3 ++ c4 ++ c5 ++ c6).isEmpty then baseSelect
      else baseSelect ++ " AND " ++ joinSep " AND " (c1 ++ c2 ++ c3 ++ c4 ++ c5 ++ c6), ?_⟩
    rw [hsql]
    rfl
  · intro hact
    have hht : ht = false := by rw [hflag', hact]
    subst hht
    refine ⟨if (c1 ++ c2 ++ c3 ++ c4 ++ c5 ++ c6).isEmpty then baseSelect
      else baseSelect ++ " AND " ++ joinSep " AND " (c1 ++ c2 ++ c3 ++ c4 ++ c5 ++ c6), ?_⟩
    rw [hsql]
    rfl
  · rw [hsql]
    unfold assembleSql
    cases ht with
    | true =>
      apply containsStr_append_right
      show containsStr (textOrderSuffix (orderEscape r.company_purpose)) "LIMIT 1000" = true
      unfold textOrderSuffix
      apply containsStr_append_right
      decide
    | false =>
      apply containsStr_append_right
      show containsStr plainOrderSuffix "LIMIT 1000" = true
      decide

/-- Witness for C6 on the empty request. -/
theorem c6_order_and_limit_witness :
    (purposeActive emptyRequest = true →
      ∃ pre, emptySql = pre ++ textOrderSuffix (orderEscape emptyRequest.company_purpose)) ∧
    (purposeActive emptyRequest = false → ∃ pre, emptySql = pre ++ plainOrderSuffix) ∧
    containsStr emptySql "LIMIT 1000" = true :=
  c6_order_and_limit emptyRequest emptySql rfl

/-! ### Claim C8 -/

/-- C8: for every accepted purpose text, the compiled query's bm25 filter
predicate contains the trimmed input with every single quote doubled (the
accepted input holds no quote, so the doubling is the identity), and the
query ends with the ORDER BY whose primary sort key is the bm25 ranking
call on that same escaped text, before company_name. -/
theorem c8_purpose_escaped_and_primary_sort (r : SearchRequest) (p : String) (sql : String)
    (hp : r.company_purpose = some p)
    (hne : strIsEmpty (rustTrim p) = false)
    (h : build_company_search_query r = .ok sql) :
    containsStr sql (purposeFragment (escQuotes (rustTrim p))) = true ∧
    ∃ pre, sql = pre ++ (textOrderPre ++ escQuotes (rustTrim p) ++ textOrderPost) := by
  obtain ⟨c1, c2, c3, c4, ht, c5, c6, h1, h2, h3, h4, h5, h6, hsql⟩ := build_ok_inv r sql h
  obtain ⟨hflag, hinv, -⟩ := purposeCondition_inv _ _ _ h4
  have hht : ht = true := by rw [hflag, hp]; simp [purposeActiveOpt, hne]
  obtain ⟨p2, hp2, hclean, hc4⟩ := hinv hht
  have hpq : p = p2 := Option.some.inj (hp.symm.trans hp2)
  rw [← hpq] at hclean hc4
  have hesc : escQuotes (rustTrim p) = rustTrim p := escQuotes_of_clean _ hclean
  subst hht
  have hmem : purposeFragment (rustTrim p) ∈ c1 ++ c2 ++ c3 ++ c4 ++ c5 ++ c6 := by
    rw [hc4]
    simp
  have hconds : (c1 ++ c2 ++ c3 ++ c4 ++ c5 ++ c6).isEmpty = false := by
    cases hcs : c1 ++ c2 ++ c3 ++ c4 ++ c5 ++ c6 with
    | nil => rw [hcs] at hmem; cases hmem
    | cons a as => rfl
  constructor
  · rw [hsql, hesc]
    unfold assembleSql
    rw [if_neg (by rw [hconds]; exact Bool.false_ne_true)]
    apply containsStr_append_left
    apply containsStr_append_right
    exact mem_joinSep " AND " _ _ hmem
  · refine ⟨if (c1 ++ c2 ++ c3 ++ c4 ++ c5 ++ c6).isEmpty then baseSelect
      else baseSelect ++ " AND " ++ joinSep " AND " (c1 ++ c2 ++ c3 ++ c4 ++ c5 ++ c6), ?_⟩
    rw [hsql, hp]
    rfl

/-- Witness for C8 on a concrete accepted purpose text. -/
theorem c8_purpose_escaped_witness :
    containsStr c8wSql (purposeFragment (escQuotes (rustTrim "energi"))) = true ∧
    ∃ pre, c8wSql = pre ++ (textOrderPre ++ escQuotes (rustTrim "energi") ++ textOrderPost) :=
  c8_purpose_escaped_and_primary_sort (purposeOnly "energi") "energi" c8wSql rfl
    (by decide) rfl

/-! ### Sanity checks mirroring the unit tests of src/tool.rs -/

/-- Scenario B of the spec (and `test_build_company_search_query_basic`):
name plus year range compile to the two AND-joined conditions. -/
theorem scenarioB_name_and_year :
    build_company_search_query
      { company_name := some "Test Company", foundation_year := some (2020, 2023) } =
    .ok ("SELECT * FROM hello_nest WHERE 1=1 AND company_name ILIKE '%Test Company%'" ++
      " AND foundation_year BETWEEN 2020 AND 2023 ORDER BY company_name LIMIT 1000") := by
  rfl

/-- Scenario C of the spec (and `test_build_company_search_query_nace_array`):
two categories compile to an OR-joined membership pair. -/
theorem scenarioC_nace_pair :
    build_company_search_query (naceOnly ["62010", "62020"]) =
    .ok ("SELECT * FROM hello_nest WHERE 1=1 AND " ++
      "('62010' = ANY(nace_categories) OR '62020' = ANY(nace_categories))" ++
      " ORDER BY company_name LIMIT 1000") := by
  rfl

/-- Scenario D of the spec (`test_sql_injection_protection_company_name`):
the classic injection string is rejected. -/
theorem scenarioD_injection_rejected :
    build_company_search_query (nameOnly "'; DROP TABLE hello_nest; --") =
      .error nameCharsErr := by
  rfl
